import Mathlib

/-!
# Verification of the default-VPC removal scripts

Shallow embedding of the two Python scripts of the repository:

* `remove-vpc.py` (namespace `Classic`): single-region teardown driven by `main`.
* `remove_vpc.py` (namespace `Threaded`): per-region teardown driven by
  `delete_everything_in_region`, with a module-level `dryrun` toggle and a
  command-line entry point.

Each EC2 API call and each `print` of the scripts is modelled as an `Event`;
a run of a function is the list of events it emits, in order.  The EC2 backend
is an oracle `Env` holding the responses of the describe calls (already
filtered by the VPC, exactly as the scripts request them) together with flags
saying which describe calls raise `ClientError` and which mutating calls do.

A Python `try/except ClientError` that catches a describe failure only prints
the message; execution then falls through to `if <var>:` with the local
variable unbound, which raises an uncaught `UnboundLocalError`.  This crash is
modelled by returning `Except.error` carrying the trace emitted up to the
crash; normal completion returns `Except.ok` with the full trace.

Note on `remove_vpc.py` line 82: the line reads
`if (dryrun != True): = ec2.delete_route_table(RouteTableId=rtb_id)` and
contains a stray `=` token, a Python syntax error.  The embedding of
`Threaded.delete_rtbs` drops the stray token and models the evidently intended
guarded call, the exact pattern of every other deleter in the same file.
-/

namespace VpcDelete

/-- One record of `describe_internet_gateways(...)['InternetGateways']`. -/
structure InternetGateway where
  internetGatewayId : String
deriving DecidableEq, Repr

/-- One record of `describe_subnets(...)['Subnets']`. -/
structure Subnet where
  subnetId : String
deriving DecidableEq, Repr

/-- One record of a route table's `'Associations'` list: the `'Main'` flag. -/
structure RtbAssociation where
  main : Bool
deriving DecidableEq, Repr

/-- One record of `describe_route_tables(...)['RouteTables']`. -/
structure RouteTable where
  routeTableId : String
  associations : List RtbAssociation
deriving DecidableEq, Repr

/-- One record of `describe_network_acls(...)['NetworkAcls']`. -/
structure NetworkAcl where
  networkAclId : String
  isDefault : Bool
deriving DecidableEq, Repr

/-- One record of `describe_security_groups(...)['SecurityGroups']`. -/
structure SecurityGroup where
  groupId : String
  groupName : String
deriving DecidableEq, Repr

/-- Observable events of a run: EC2 API calls and `print` output.
`log*` constructors stand for the scripts' `print` statements
(`logScanning` = "Scanning Region: r", `logNoVpc` = the "was not found"
prints, `logRemoving` = " Removing VPC: v", `logInUse` = the "has existing
resources" prints, `logDetaching`/`logDeleting` = the "  Detaching/Deleting x"
prints, `logDeleted` = "VPC v has been deleted from the r region.",
`logErr` = printing `e.response['Error']['Message']`). -/
inductive Event where
  | describeAttrs
  | describeEnis (vpcId : String)
  | describeIgws (vpcId : String)
  | describeSubnets (vpcId : String)
  | describeRtbs (vpcId : String)
  | describeAcls (vpcId : String)
  | describeSgps (vpcId : String)
  | logScanning (region : String)
  | logNoVpc (region : String)
  | logRemoving (vpcId : String)
  | logInUse (vpcId : String)
  | logDetaching (igwId : String)
  | logDeleting (objectId : String)
  | logDeleted (vpcId region : String)
  | logErr
  | detachIgw (igwId vpcId : String)
  | deleteIgw (igwId : String)
  | deleteSubnet (subnetId : String)
  | deleteRouteTable (rtbId : String)
  | deleteNetworkAcl (aclId : String)
  | deleteSecurityGroup (sgId : String)
  | deleteVpc (vpcId : String)
deriving DecidableEq, Repr

abbrev Trace := List Event

/-- The EC2 oracle for one region: the payloads the describe calls return
(already filtered to the default VPC, exactly as the scripts request them),
which describe calls raise `ClientError`, and which mutating calls raise
`ClientError`. -/
structure Env where
  internetGateways : List InternetGateway
  subnets : List Subnet
  routeTables : List RouteTable
  networkAcls : List NetworkAcl
  securityGroups : List SecurityGroup
  networkInterfaces : List String
  defaultVpcAttr : Option String
  igwListFails : Bool
  subListFails : Bool
  rtbListFails : Bool
  aclListFails : Bool
  sgpListFails : Bool
  attrQueryFails : Bool
  eniQueryFails : Bool
  callFails : Event → Bool

/-- Result of a run: `ok` = normal return with its trace; `error` = an
uncaught Python exception, carrying the trace emitted before the crash. -/
abbrev Run := Except Trace Trace

/-- The events a run emitted, crashed or not. -/
def runEvents : Run → Trace
  | .ok t => t
  | .error t => t

/-- Whether a run ended in an uncaught exception. -/
def crashed : Run → Bool
  | .ok _ => false
  | .error _ => true

/-- Sequencing of two steps: a crash in the first aborts the second. -/
def andThen (a b : Run) : Run :=
  match a with
  | .error t => .error t
  | .ok t =>
    match b with
    | .error u => .error (t ++ u)
    | .ok u => .ok (t ++ u)

/-- A mutating call wrapped in its own `try/except ClientError: print(...)`:
the call is always issued; if it raises, the message is printed and execution
continues. -/
def attempt (env : Env) (e : Event) : Trace :=
  e :: (if env.callFails e then [Event.logErr] else [])

/-- `main = 'false'; for assoc in rtb['Associations']: main = assoc['Main']`
followed by the test `main == True`.  The fold keeps the last association's
`Main` flag; the sentinel (the string `'false'` in Python, which compares
unequal to `True`) is modelled by `false`. -/
def lastMainFlag (assocs : List RtbAssociation) : Bool :=
  assocs.foldl (fun _ a => a.main) false

/-- Events that modify cloud state. -/
def Event.isMutating : Event → Bool
  | .detachIgw _ _ => true
  | .deleteIgw _ => true
  | .deleteSubnet _ => true
  | .deleteRouteTable _ => true
  | .deleteNetworkAcl _ => true
  | .deleteSecurityGroup _ => true
  | .deleteVpc _ => true
  | _ => false

/-- Events belonging to the teardown stage: any call issued by one of the five
resource deleters or the final VPC deletion (their describe calls and every
mutating call). -/
def Event.isTeardownCall : Event → Bool
  | .describeIgws _ => true
  | .describeSubnets _ => true
  | .describeRtbs _ => true
  | .describeAcls _ => true
  | .describeSgps _ => true
  | e => e.isMutating

/-- List/describe (read-only) API calls. -/
def Event.isDescribe : Event → Bool
  | .describeAttrs => true
  | .describeEnis _ => true
  | .describeIgws _ => true
  | .describeSubnets _ => true
  | .describeRtbs _ => true
  | .describeAcls _ => true
  | .describeSgps _ => true
  | _ => false

/-- The "intended deletion" log lines: the `"  Detaching x"` and
`"  Deleting x"` prints. -/
def Event.isIntentLog : Event → Bool
  | .logDetaching _ => true
  | .logDeleting _ => true
  | _ => false

/-- The mutating calls a run issued. -/
def muts (r : Run) : Trace := (runEvents r).filter Event.isMutating

/-! ## `remove-vpc.py` (single-region script) -/

namespace Classic

/-- Success path of `delete_igw` of remove-vpc.py: list gateways attached to
the VPC; if any, detach then delete the first one, each call in its own
try/except. -/
def delete_igw_body (env : Env) (vpcId : String) : Trace :=
  Event.describeIgws vpcId ::
    match env.internetGateways with
    | [] => []
    | g :: _ =>
      attempt env (Event.detachIgw g.internetGatewayId vpcId)
        ++ attempt env (Event.deleteIgw g.internetGatewayId)

/-- `delete_igw` of remove-vpc.py.  A failing describe prints the error and
then crashes at `if igw:` (unbound local). -/
def delete_igw (env : Env) (vpcId : String) : Run :=
  if env.igwListFails then .error [Event.describeIgws vpcId, Event.logErr]
  else .ok (delete_igw_body env vpcId)

/-- Success path of `delete_subs` of remove-vpc.py: delete every subnet of the
VPC, each call in its own try/except. -/
def delete_subs_body (env : Env) (vpcId : String) : Trace :=
  Event.describeSubnets vpcId ::
    env.subnets.flatMap (fun s => attempt env (Event.deleteSubnet s.subnetId))

/-- `delete_subs` of remove-vpc.py.  A failing describe prints the error and
then crashes at `if subs:` (unbound local). -/
def delete_subs (env : Env) (vpcId : String) : Run :=
  if env.subListFails then .error [Event.describeSubnets vpcId, Event.logErr]
  else .ok (delete_subs_body env vpcId)

/-- Success path of `delete_rtbs` of remove-vpc.py: skip a table when the
last-seen `Main` flag of its associations equals `True`, otherwise delete
it. -/
def delete_rtbs_body (env : Env) (vpcId : String) : Trace :=
  Event.describeRtbs vpcId ::
    env.routeTables.flatMap (fun rtb =>
      if lastMainFlag rtb.associations then []
      else attempt env (Event.deleteRouteTable rtb.routeTableId))

/-- `delete_rtbs` of remove-vpc.py. -/
def delete_rtbs (env : Env) (vpcId : String) : Run :=
  if env.rtbListFails then .error [Event.describeRtbs vpcId, Event.logErr]
  else .ok (delete_rtbs_body env vpcId)

/-- Success path of `delete_acls` of remove-vpc.py: skip an ACL when
`IsDefault == True`, otherwise delete it; the loop visits every ACL of the
list. -/
def delete_acls_body (env : Env) (vpcId : String) : Trace :=
  Event.describeAcls vpcId ::
    env.networkAcls.flatMap (fun acl =>
      if acl.isDefault then []
      else attempt env (Event.deleteNetworkAcl acl.networkAclId))

/-- `delete_acls` of remove-vpc.py. -/
def delete_acls (env : Env) (vpcId : String) : Run :=
  if env.aclListFails then .error [Event.describeAcls vpcId, Event.logErr]
  else .ok (delete_acls_body env vpcId)

/-- Success path of `delete_sgps` of remove-vpc.py: skip a group when
`GroupName == 'default'`, otherwise delete it. -/
def delete_sgps_body (env : Env) (vpcId : String) : Trace :=
  Event.describeSgps vpcId ::
    env.securityGroups.flatMap (fun sgp =>
      if sgp.groupName == "default" then []
      else attempt env (Event.deleteSecurityGroup sgp.groupId))

/-- `delete_sgps` of remove-vpc.py. -/
def delete_sgps (env : Env) (vpcId : String) : Run :=
  if env.sgpListFails then .error [Event.describeSgps vpcId, Event.logErr]
  else .ok (delete_sgps_body env vpcId)

/-- `delete_vpc` of remove-vpc.py: one try/except/else around `delete_vpc`;
on success the "has been deleted" line is printed. -/
def delete_vpc (env : Env) (vpcId region : String) : Trace :=
  if env.callFails (Event.deleteVpc vpcId) then [Event.deleteVpc vpcId, Event.logErr]
  else [Event.deleteVpc vpcId, Event.logDeleted vpcId region]

/-- `main` of remove-vpc.py: read the `default-vpc` account attribute (a
caught failure prints and returns; an empty attribute list crashes at
`attribs[0]`, an uncaught IndexError); return if the value is `'none'`; query
network interfaces (a caught failure prints and returns); return if any exist;
otherwise run the five deleters and then delete the VPC. -/
def main (env : Env) (region : String) : Run :=
  if env.attrQueryFails then .ok [Event.describeAttrs, Event.logErr]
  else
    match env.defaultVpcAttr with
    | none => .error [Event.describeAttrs]
    | some vpcId =>
      if vpcId == "none" then .ok [Event.describeAttrs, Event.logNoVpc region]
      else if env.eniQueryFails then
        .ok [Event.describeAttrs, Event.describeEnis vpcId, Event.logErr]
      else if !env.networkInterfaces.isEmpty then
        .ok [Event.describeAttrs, Event.describeEnis vpcId, Event.logInUse vpcId]
      else
        andThen (.ok [Event.describeAttrs, Event.describeEnis vpcId]) <|
        andThen (delete_igw env vpcId) <|
        andThen (delete_subs env vpcId) <|
        andThen (delete_rtbs env vpcId) <|
        andThen (delete_acls env vpcId) <|
        andThen (delete_sgps env vpcId) (.ok (delete_vpc env vpcId region))

end Classic

/-! ## `remove_vpc.py` (threaded, multi-region script) -/

namespace Threaded

/-- The shared deleter pattern of remove_vpc.py:
`try: print("  Deleting " + id); if (dryrun != True): <call>; except: print`. -/
def attemptDelete (env : Env) (dryrun : Bool) (objectId : String) (e : Event) : Trace :=
  Event.logDeleting objectId :: (if dryrun then [] else attempt env e)

/-- Success path of `delete_igw` of remove_vpc.py: as the classic one, with
"Detaching" / "Deleting" prints and both calls guarded by the `dryrun`
toggle. -/
def delete_igw_body (env : Env) (dryrun : Bool) (vpcId : String) : Trace :=
  Event.describeIgws vpcId ::
    match env.internetGateways with
    | [] => []
    | g :: _ =>
      (Event.logDetaching g.internetGatewayId ::
          (if dryrun then [] else attempt env (Event.detachIgw g.internetGatewayId vpcId)))
        ++ attemptDelete env dryrun g.internetGatewayId (Event.deleteIgw g.internetGatewayId)

/-- `delete_igw` of remove_vpc.py. -/
def delete_igw (env : Env) (dryrun : Bool) (vpcId : String) : Run :=
  if env.igwListFails then .error [Event.describeIgws vpcId, Event.logErr]
  else .ok (delete_igw_body env dryrun vpcId)

/-- Success path of `delete_subs` of remove_vpc.py. -/
def delete_subs_body (env : Env) (dryrun : Bool) (vpcId : String) : Trace :=
  Event.describeSubnets vpcId ::
    env.subnets.flatMap (fun s =>
      attemptDelete env dryrun s.subnetId (Event.deleteSubnet s.subnetId))

/-- `delete_subs` of remove_vpc.py. -/
def delete_subs (env : Env) (dryrun : Bool) (vpcId : String) : Run :=
  if env.subListFails then .error [Event.describeSubnets vpcId, Event.logErr]
  else .ok (delete_subs_body env dryrun vpcId)

/-- Success path of `delete_rtbs` of remove_vpc.py (line 82's stray `=`
dropped; see the module docstring): same last-seen-`Main` skip as the classic
variant. -/
def delete_rtbs_body (env : Env) (dryrun : Bool) (vpcId : String) : Trace :=
  Event.describeRtbs vpcId ::
    env.routeTables.flatMap (fun rtb =>
      if lastMainFlag rtb.associations then []
      else attemptDelete env dryrun rtb.routeTableId (Event.deleteRouteTable rtb.routeTableId))

/-- `delete_rtbs` of remove_vpc.py. -/
def delete_rtbs (env : Env) (dryrun : Bool) (vpcId : String) : Run :=
  if env.rtbListFails then .error [Event.describeRtbs vpcId, Event.logErr]
  else .ok (delete_rtbs_body env dryrun vpcId)

/-- Success path of `delete_acls` of remove_vpc.py: the loop visits every ACL,
skipping default ones. -/
def delete_acls_body (env : Env) (dryrun : Bool) (vpcId : String) : Trace :=
  Event.describeAcls vpcId ::
    env.networkAcls.flatMap (fun acl =>
      if acl.isDefault then []
      else attemptDelete env dryrun acl.networkAclId (Event.deleteNetworkAcl acl.networkAclId))

/-- `delete_acls` of remove_vpc.py. -/
def delete_acls (env : Env) (dryrun : Bool) (vpcId : String) : Run :=
  if env.aclListFails then .error [Event.describeAcls vpcId, Event.logErr]
  else .ok (delete_acls_body env dryrun vpcId)

/-- Success path of `delete_sgps` of remove_vpc.py. -/
def delete_sgps_body (env : Env) (dryrun : Bool) (vpcId : String) : Trace :=
  Event.describeSgps vpcId ::
    env.securityGroups.flatMap (fun sgp =>
      if sgp.groupName == "default" then []
      else attemptDelete env dryrun sgp.groupId (Event.deleteSecurityGroup sgp.groupId))

/-- `delete_sgps` of remove_vpc.py. -/
def delete_sgps (env : Env) (dryrun : Bool) (vpcId : String) : Run :=
  if env.sgpListFails then .error [Event.describeSgps vpcId, Event.logErr]
  else .ok (delete_sgps_body env dryrun vpcId)

/-- `delete_vpc` of remove_vpc.py: print "Deleting", issue the call unless
`dryrun`; the `else:` branch of the try prints "has been deleted" whenever no
exception occurred (hence also on a dry run). -/
def delete_vpc (env : Env) (dryrun : Bool) (vpcId region : String) : Trace :=
  Event.logDeleting vpcId ::
    (if dryrun then [Event.logDeleted vpcId region]
     else if env.callFails (Event.deleteVpc vpcId) then [Event.deleteVpc vpcId, Event.logErr]
     else [Event.deleteVpc vpcId, Event.logDeleted vpcId region])

/-- `delete_everything_in_region` of remove_vpc.py: print "Scanning", read the
`default-vpc` attribute (unguarded), return if the attribute list is empty —
note there is no check of the value `'none'` —; print "Removing", query
network interfaces (unguarded), return if any exist; otherwise run the five
deleters and then delete the VPC. -/
def delete_everything_in_region (env : Env) (dryrun : Bool) (region : String) : Run :=
  match env.defaultVpcAttr with
  | none => .ok [Event.logScanning region, Event.describeAttrs, Event.logNoVpc region]
  | some vpcId =>
    if !env.networkInterfaces.isEmpty then
      .ok [Event.logScanning region, Event.describeAttrs, Event.logRemoving vpcId,
           Event.describeEnis vpcId, Event.logInUse vpcId]
    else
      andThen (.ok [Event.logScanning region, Event.describeAttrs,
                    Event.logRemoving vpcId, Event.describeEnis vpcId]) <|
      andThen (delete_igw env dryrun vpcId) <|
      andThen (delete_subs env dryrun vpcId) <|
      andThen (delete_rtbs env dryrun vpcId) <|
      andThen (delete_acls env dryrun vpcId) <|
      andThen (delete_sgps env dryrun vpcId) (.ok (delete_vpc env dryrun vpcId region))

/-- A Python value appearing in the entry point's comparison. -/
inductive PyVal where
  | str (s : String)
  | bool (b : Bool)
deriving DecidableEq, Repr

/-- Python `==` restricted to the values above: values of different types are
never equal (`str.__eq__` returns NotImplemented against `bool`, and default
object equality is identity). -/
def pyEq : PyVal → PyVal → Bool
  | .str a, .str b => a == b
  | .bool a, .bool b => a == b
  | _, _ => false

/-- The `__main__` block of remove_vpc.py: the value the module-level `dryrun`
has when `main` is entered, as a function of `sys.argv`.  With two arguments
it is `sys.argv[2] == True`; otherwise the default `True` (re-assigned as the
literal `True` in the two-element case). -/
def scriptDryrun (argv : List String) : Bool :=
  match argv with
  | [_, _] => true
  | [_, _, d] => pyEq (.str d) (.bool true)
  | _ => true

end Threaded

/-! ## Deletion-candidate sets

The mutating calls each deleter issues, characterised from the response lists.
These definitions are the yardstick the theorems compare the deleters
against. -/

/-- Detach-then-delete calls for the first attached internet gateway, if
any. -/
def igwDeletes (env : Env) (vpcId : String) : Trace :=
  match env.internetGateways with
  | [] => []
  | g :: _ => [Event.detachIgw g.internetGatewayId vpcId, Event.deleteIgw g.internetGatewayId]

/-- One delete call per subnet. -/
def subDeletes (env : Env) : Trace :=
  env.subnets.map fun s => Event.deleteSubnet s.subnetId

/-- One delete call per route table whose last-seen association `Main` flag is
not `true`. -/
def rtbDeletes (env : Env) : Trace :=
  (env.routeTables.filter fun r => !lastMainFlag r.associations).map
    fun r => Event.deleteRouteTable r.routeTableId

/-- One delete call per non-default network ACL. -/
def aclDeletes (env : Env) : Trace :=
  (env.networkAcls.filter fun a => !a.isDefault).map
    fun a => Event.deleteNetworkAcl a.networkAclId

/-- One delete call per security group not named "default". -/
def sgDeletes (env : Env) : Trace :=
  (env.securityGroups.filter fun g => !(g.groupName == "default")).map
    fun g => Event.deleteSecurityGroup g.groupId

/-! ## Generic trace lemmas -/

theorem filter_flatMap {α : Type*} (p : Event → Bool) (l : List α) (f : α → Trace) :
    (l.flatMap f).filter p = l.flatMap fun a => (f a).filter p := by
  induction l with
  | nil => rfl
  | cons x xs ih => simp [List.flatMap_cons, List.filter_append, ih]

theorem flatMap_guard {α : Type*} (l : List α) (q : α → Bool) (g : α → Trace) :
    (l.flatMap fun a => if q a then [] else g a) = (l.filter fun a => !q a).flatMap g := by
  induction l with
  | nil => rfl
  | cons x xs ih => cases h : q x <;> simp [List.flatMap_cons, List.filter_cons, h, ih]

theorem flatMap_singleton {α : Type*} (l : List α) (g : α → Event) :
    (l.flatMap fun a => [g a]) = l.map g := by
  induction l with
  | nil => rfl
  | cons x xs ih => simp [List.flatMap_cons, ih]

theorem filter_mut_attempt (env : Env) (e : Event) (he : e.isMutating = true) :
    (attempt env e).filter Event.isMutating = [e] := by
  have herr : Event.isMutating Event.logErr = false := rfl
  cases h : env.callFails e <;> simp [attempt, h, List.filter_cons, he, herr]

theorem filter_attempt_none (env : Env) (e : Event) (p : Event → Bool)
    (hpe : p e = false) (hperr : p Event.logErr = false) :
    (attempt env e).filter p = [] := by
  cases h : env.callFails e <;> simp [attempt, h, hpe, hperr]

theorem filter_mut_attemptDelete (env : Env) (dr : Bool) (objectId : String) (e : Event)
    (he : e.isMutating = true) :
    (Threaded.attemptDelete env dr objectId e).filter Event.isMutating
      = if dr then [] else [e] := by
  have hlog : ∀ s, Event.isMutating (Event.logDeleting s) = false := fun _ => rfl
  cases dr <;>
    simp [Threaded.attemptDelete, List.filter_cons, hlog, filter_mut_attempt env e he]

theorem filter_attemptDelete_p (env : Env) (dr : Bool) (objectId : String) (e : Event)
    (p : Event → Bool) (hpe : p e = false) (hperr : p Event.logErr = false) :
    (Threaded.attemptDelete env dr objectId e).filter p
      = if p (Event.logDeleting objectId) then [Event.logDeleting objectId] else [] := by
  cases dr <;> cases hc : env.callFails e <;>
    simp [Threaded.attemptDelete, attempt, hc, hpe, hperr, List.filter_cons]

theorem flatMap_empty {α : Type*} (l : List α) : (l.flatMap fun _ => ([] : Trace)) = [] := by
  induction l with
  | nil => rfl
  | cons x xs ih => simp [List.flatMap_cons, ih]

/-! ## Mutating calls of each deleter -/

theorem muts_classic_igw_body (env : Env) (vpcId : String) :
    (Classic.delete_igw_body env vpcId).filter Event.isMutating = igwDeletes env vpcId := by
  unfold Classic.delete_igw_body igwDeletes
  cases env.internetGateways with
  | nil => rfl
  | cons g t =>
    simp [List.filter_cons, List.filter_append, Event.isMutating,
      filter_mut_attempt env (Event.detachIgw g.internetGatewayId vpcId) rfl,
      filter_mut_attempt env (Event.deleteIgw g.internetGatewayId) rfl]

theorem muts_classic_subs_body (env : Env) (vpcId : String) :
    (Classic.delete_subs_body env vpcId).filter Event.isMutating = subDeletes env := by
  have key : ∀ s : Subnet,
      (attempt env (Event.deleteSubnet s.subnetId)).filter Event.isMutating
        = [Event.deleteSubnet s.subnetId] :=
    fun s => filter_mut_attempt env _ rfl
  simp [Classic.delete_subs_body, subDeletes, List.filter_cons, Event.isMutating,
    filter_flatMap, key, flatMap_singleton]

theorem muts_classic_rtbs_body (env : Env) (vpcId : String) :
    (Classic.delete_rtbs_body env vpcId).filter Event.isMutating = rtbDeletes env := by
  have key : ∀ r : RouteTable,
      (attempt env (Event.deleteRouteTable r.routeTableId)).filter Event.isMutating
        = [Event.deleteRouteTable r.routeTableId] :=
    fun r => filter_mut_attempt env _ rfl
  simp [Classic.delete_rtbs_body, rtbDeletes, flatMap_guard, List.filter_cons,
    Event.isMutating, filter_flatMap, key, flatMap_singleton]

theorem muts_classic_acls_body (env : Env) (vpcId : String) :
    (Classic.delete_acls_body env vpcId).filter Event.isMutating = aclDeletes env := by
  have key : ∀ a : NetworkAcl,
      (attempt env (Event.deleteNetworkAcl a.networkAclId)).filter Event.isMutating
        = [Event.deleteNetworkAcl a.networkAclId] :=
    fun a => filter_mut_attempt env _ rfl
  simp [Classic.delete_acls_body, aclDeletes, flatMap_guard, List.filter_cons,
    Event.isMutating, filter_flatMap, key, flatMap_singleton]

theorem muts_classic_sgps_body (env : Env) (vpcId : String) :
    (Classic.delete_sgps_body env vpcId).filter Event.isMutating = sgDeletes env := by
  have key : ∀ g : SecurityGroup,
      (attempt env (Event.deleteSecurityGroup g.groupId)).filter Event.isMutating
        = [Event.deleteSecurityGroup g.groupId] :=
    fun g => filter_mut_attempt env _ rfl
  unfold Classic.delete_sgps_body
  rw [flatMap_guard]
  simp [sgDeletes, List.filter_cons, Event.isMutating, filter_flatMap, key,
    flatMap_singleton]

theorem muts_classic_vpc (env : Env) (vpcId region : String) :
    (Classic.delete_vpc env vpcId region).filter Event.isMutating = [Event.deleteVpc vpcId] := by
  cases h : env.callFails (Event.deleteVpc vpcId) <;>
    simp [Classic.delete_vpc, h, Event.isMutating, List.filter_cons]

theorem muts_threaded_igw_body (env : Env) (dr : Bool) (vpcId : String) :
    (Threaded.delete_igw_body env dr vpcId).filter Event.isMutating
      = if dr then [] else igwDeletes env vpcId := by
  unfold Threaded.delete_igw_body igwDeletes
  cases env.internetGateways with
  | nil => cases dr <;> rfl
  | cons g t =>
    cases dr <;>
      simp [List.filter_cons, List.filter_append, Event.isMutating,
        filter_mut_attempt env (Event.detachIgw g.internetGatewayId vpcId) rfl,
        filter_mut_attemptDelete env _ _ (Event.deleteIgw g.internetGatewayId) rfl]

theorem muts_threaded_subs_body (env : Env) (dr : Bool) (vpcId : String) :
    (Threaded.delete_subs_body env dr vpcId).filter Event.isMutating
      = if dr then [] else subDeletes env := by
  have key : ∀ s : Subnet,
      (Threaded.attemptDelete env dr s.subnetId (Event.deleteSubnet s.subnetId)).filter
          Event.isMutating = if dr then [] else [Event.deleteSubnet s.subnetId] :=
    fun s => filter_mut_attemptDelete env dr _ _ rfl
  cases dr <;>
    simp [Threaded.delete_subs_body, subDeletes, List.filter_cons, Event.isMutating,
      filter_flatMap, key, flatMap_singleton, flatMap_empty]

theorem muts_threaded_rtbs_body (env : Env) (dr : Bool) (vpcId : String) :
    (Threaded.delete_rtbs_body env dr vpcId).filter Event.isMutating
      = if dr then [] else rtbDeletes env := by
  have key : ∀ r : RouteTable,
      (Threaded.attemptDelete env dr r.routeTableId (Event.deleteRouteTable r.routeTableId)).filter
          Event.isMutating = if dr then [] else [Event.deleteRouteTable r.routeTableId] :=
    fun r => filter_mut_attemptDelete env dr _ _ rfl
  cases dr <;>
    simp [Threaded.delete_rtbs_body, rtbDeletes, flatMap_guard, List.filter_cons,
      Event.isMutating, filter_flatMap, key, flatMap_singleton, flatMap_empty]

theorem muts_threaded_acls_body (env : Env) (dr : Bool) (vpcId : String) :
    (Threaded.delete_acls_body env dr vpcId).filter Event.isMutating
      = if dr then [] else aclDeletes env := by
  have key : ∀ a : NetworkAcl,
      (Threaded.attemptDelete env dr a.networkAclId (Event.deleteNetworkAcl a.networkAclId)).filter
          Event.isMutating = if dr then [] else [Event.deleteNetworkAcl a.networkAclId] :=
    fun a => filter_mut_attemptDelete env dr _ _ rfl
  cases dr <;>
    simp [Threaded.delete_acls_body, aclDeletes, flatMap_guard, List.filter_cons,
      Event.isMutating, filter_flatMap, key, flatMap_singleton, flatMap_empty]

theorem muts_threaded_sgps_body (env : Env) (dr : Bool) (vpcId : String) :
    (Threaded.delete_sgps_body env dr vpcId).filter Event.isMutating
      = if dr then [] else sgDeletes env := by
  have key : ∀ g : SecurityGroup,
      (Threaded.attemptDelete env dr g.groupId (Event.deleteSecurityGroup g.groupId)).filter
          Event.isMutating = if dr then [] else [Event.deleteSecurityGroup g.groupId] :=
    fun g => filter_mut_attemptDelete env dr _ _ rfl
  unfold Threaded.delete_sgps_body
  rw [flatMap_guard]
  cases dr <;>
    simp [sgDeletes, List.filter_cons, Event.isMutating, filter_flatMap, key,
      flatMap_singleton, flatMap_empty]

theorem muts_threaded_vpc (env : Env) (dr : Bool) (vpcId region : String) :
    (Threaded.delete_vpc env dr vpcId region).filter Event.isMutating
      = if dr then [] else [Event.deleteVpc vpcId] := by
  cases dr <;> cases h : env.callFails (Event.deleteVpc vpcId) <;>
    simp [Threaded.delete_vpc, h, Event.isMutating, List.filter_cons]

/-! ## Trace decomposition of a gate-passing region run -/

theorem classic_main_eq (env : Env) (region vpcId : String)
    (hattr : env.attrQueryFails = false) (hv : env.defaultVpcAttr = some vpcId)
    (hnone : vpcId ≠ "none") (heni : env.eniQueryFails = false)
    (hnic : env.networkInterfaces = []) (h1 : env.igwListFails = false)
    (h2 : env.subListFails = false) (h3 : env.rtbListFails = false)
    (h4 : env.aclListFails = false) (h5 : env.sgpListFails = false) :
    Classic.main env region
      = .ok ([Event.describeAttrs, Event.describeEnis vpcId]
          ++ (Classic.delete_igw_body env vpcId ++ (Classic.delete_subs_body env vpcId
          ++ (Classic.delete_rtbs_body env vpcId ++ (Classic.delete_acls_body env vpcId
          ++ (Classic.delete_sgps_body env vpcId
          ++ Classic.delete_vpc env vpcId region)))))) := by
  simp [Classic.main, Classic.delete_igw, Classic.delete_subs, Classic.delete_rtbs,
    Classic.delete_acls, Classic.delete_sgps, hattr, hv, hnone, heni, hnic,
    h1, h2, h3, h4, h5, andThen]

theorem threaded_main_eq (env : Env) (dr : Bool) (region vpcId : String)
    (hv : env.defaultVpcAttr = some vpcId) (hnic : env.networkInterfaces = [])
    (h1 : env.igwListFails = false) (h2 : env.subListFails = false)
    (h3 : env.rtbListFails = false) (h4 : env.aclListFails = false)
    (h5 : env.sgpListFails = false) :
    Threaded.delete_everything_in_region env dr region
      = .ok ([Event.logScanning region, Event.describeAttrs, Event.logRemoving vpcId,
              Event.describeEnis vpcId]
          ++ (Threaded.delete_igw_body env dr vpcId
          ++ (Threaded.delete_subs_body env dr vpcId
          ++ (Threaded.delete_rtbs_body env dr vpcId
          ++ (Threaded.delete_acls_body env dr vpcId
          ++ (Threaded.delete_sgps_body env dr vpcId
          ++ Threaded.delete_vpc env dr vpcId region)))))) := by
  simp [Threaded.delete_everything_in_region, Threaded.delete_igw, Threaded.delete_subs,
    Threaded.delete_rtbs, Threaded.delete_acls, Threaded.delete_sgps, hv, hnic,
    h1, h2, h3, h4, h5, andThen]

theorem classic_main_muts (env : Env) (region vpcId : String)
    (hattr : env.attrQueryFails = false) (hv : env.defaultVpcAttr = some vpcId)
    (hnone : vpcId ≠ "none") (heni : env.eniQueryFails = false)
    (hnic : env.networkInterfaces = []) (h1 : env.igwListFails = false)
    (h2 : env.subListFails = false) (h3 : env.rtbListFails = false)
    (h4 : env.aclListFails = false) (h5 : env.sgpListFails = false) :
    muts (Classic.main env region)
      = igwDeletes env vpcId ++ subDeletes env ++ rtbDeletes env ++ aclDeletes env
        ++ sgDeletes env ++ [Event.deleteVpc vpcId] := by
  rw [muts, classic_main_eq env region vpcId hattr hv hnone heni hnic h1 h2 h3 h4 h5]
  simp [runEvents, List.filter_append, List.filter_cons, Event.isMutating,
    muts_classic_igw_body, muts_classic_subs_body, muts_classic_rtbs_body,
    muts_classic_acls_body, muts_classic_sgps_body, muts_classic_vpc]

theorem threaded_main_muts (env : Env) (region vpcId : String)
    (hv : env.defaultVpcAttr = some vpcId) (hnic : env.networkInterfaces = [])
    (h1 : env.igwListFails = false) (h2 : env.subListFails = false)
    (h3 : env.rtbListFails = false) (h4 : env.aclListFails = false)
    (h5 : env.sgpListFails = false) :
    muts (Threaded.delete_everything_in_region env false region)
      = igwDeletes env vpcId ++ subDeletes env ++ rtbDeletes env ++ aclDeletes env
        ++ sgDeletes env ++ [Event.deleteVpc vpcId] := by
  rw [muts, threaded_main_eq env false region vpcId hv hnic h1 h2 h3 h4 h5]
  simp [runEvents, List.filter_append, List.filter_cons, Event.isMutating,
    muts_threaded_igw_body, muts_threaded_subs_body, muts_threaded_rtbs_body,
    muts_threaded_acls_body, muts_threaded_sgps_body, muts_threaded_vpc]

theorem threaded_dry_muts (env : Env) (region : String)
    (h1 : env.igwListFails = false) (h2 : env.subListFails = false)
    (h3 : env.rtbListFails = false) (h4 : env.aclListFails = false)
    (h5 : env.sgpListFails = false) :
    muts (Threaded.delete_everything_in_region env true region) = [] := by
  match hv : env.defaultVpcAttr with
  | none => simp [muts, runEvents, Threaded.delete_everything_in_region, hv,
      Event.isMutating, List.filter_cons]
  | some vpcId =>
    match hnic : env.networkInterfaces with
    | _ :: _ => simp [muts, runEvents, Threaded.delete_everything_in_region, hv, hnic,
        Event.isMutating, List.filter_cons]
    | [] =>
      rw [muts, threaded_main_eq env true region vpcId hv hnic h1 h2 h3 h4 h5]
      simp [runEvents, List.filter_append, List.filter_cons, Event.isMutating,
        muts_threaded_igw_body, muts_threaded_subs_body, muts_threaded_rtbs_body,
        muts_threaded_acls_body, muts_threaded_sgps_body, muts_threaded_vpc]

/-! ## Events invisible to the dry-run toggle

A predicate `p` on events is dry-insensitive when it ignores the events whose
presence depends on the `dryrun` toggle or on a mutating call's outcome: the
mutating calls themselves, the error prints, and the "has been deleted"
print. -/

def DryInsensitive (p : Event → Bool) : Prop :=
  (∀ e, e.isMutating = true → p e = false) ∧ p Event.logErr = false
    ∧ ∀ v r, p (Event.logDeleted v r) = false

theorem dryInsensitive_isDescribe : DryInsensitive Event.isDescribe := by
  refine ⟨fun e he => ?_, rfl, fun v r => rfl⟩
  cases e <;> simp_all [Event.isMutating, Event.isDescribe]

theorem dryInsensitive_isIntentLog : DryInsensitive Event.isIntentLog := by
  refine ⟨fun e he => ?_, rfl, fun v r => rfl⟩
  cases e <;> simp_all [Event.isMutating, Event.isIntentLog]

theorem dry_irrel_igw_body (p : Event → Bool) (hp : DryInsensitive p) (env : Env)
    (dr dr' : Bool) (vpcId : String) :
    (Threaded.delete_igw_body env dr vpcId).filter p
      = (Threaded.delete_igw_body env dr' vpcId).filter p := by
  unfold Threaded.delete_igw_body
  cases env.internetGateways with
  | nil => rfl
  | cons g t =>
    have hdetach : ∀ dr0 : Bool,
        (if dr0 then [] else attempt env (Event.detachIgw g.internetGatewayId vpcId)).filter p
          = [] := by
      intro dr0
      cases dr0
      · exact filter_attempt_none env _ p (hp.1 _ rfl) hp.2.1
      · rfl
    have hdel := fun dr0 : Bool =>
      filter_attemptDelete_p env dr0 g.internetGatewayId (Event.deleteIgw g.internetGatewayId) p
        (hp.1 _ rfl) hp.2.1
    simp [List.filter_cons, List.filter_append, hdetach, hdel]

theorem dry_irrel_subs_body (p : Event → Bool) (hp : DryInsensitive p) (env : Env)
    (dr dr' : Bool) (vpcId : String) :
    (Threaded.delete_subs_body env dr vpcId).filter p
      = (Threaded.delete_subs_body env dr' vpcId).filter p := by
  have key := fun (dr0 : Bool) (s : Subnet) =>
    filter_attemptDelete_p env dr0 s.subnetId (Event.deleteSubnet s.subnetId) p
      (hp.1 _ rfl) hp.2.1
  simp [Threaded.delete_subs_body, List.filter_cons, filter_flatMap, key]

theorem dry_irrel_rtbs_body (p : Event → Bool) (hp : DryInsensitive p) (env : Env)
    (dr dr' : Bool) (vpcId : String) :
    (Threaded.delete_rtbs_body env dr vpcId).filter p
      = (Threaded.delete_rtbs_body env dr' vpcId).filter p := by
  have key := fun (dr0 : Bool) (r : RouteTable) =>
    filter_attemptDelete_p env dr0 r.routeTableId (Event.deleteRouteTable r.routeTableId) p
      (hp.1 _ rfl) hp.2.1
  unfold Threaded.delete_rtbs_body
  rw [flatMap_guard, flatMap_guard]
  simp [List.filter_cons, filter_flatMap, key]

theorem dry_irrel_acls_body (p : Event → Bool) (hp : DryInsensitive p) (env : Env)
    (dr dr' : Bool) (vpcId : String) :
    (Threaded.delete_acls_body env dr vpcId).filter p
      = (Threaded.delete_acls_body env dr' vpcId).filter p := by
  have key := fun (dr0 : Bool) (a : NetworkAcl) =>
    filter_attemptDelete_p env dr0 a.networkAclId (Event.deleteNetworkAcl a.networkAclId) p
      (hp.1 _ rfl) hp.2.1
  unfold Threaded.delete_acls_body
  rw [flatMap_guard, flatMap_guard]
  simp [List.filter_cons, filter_flatMap, key]

theorem dry_irrel_sgps_body (p : Event → Bool) (hp : DryInsensitive p) (env : Env)
    (dr dr' : Bool) (vpcId : String) :
    (Threaded.delete_sgps_body env dr vpcId).filter p
      = (Threaded.delete_sgps_body env dr' vpcId).filter p := by
  have key := fun (dr0 : Bool) (g : SecurityGroup) =>
    filter_attemptDelete_p env dr0 g.groupId (Event.deleteSecurityGroup g.groupId) p
      (hp.1 _ rfl) hp.2.1
  unfold Threaded.delete_sgps_body
  rw [flatMap_guard, flatMap_guard]
  simp [List.filter_cons, filter_flatMap, key]

theorem dry_irrel_vpc (p : Event → Bool) (hp : DryInsensitive p) (env : Env)
    (dr dr' : Bool) (vpcId region : String) :
    (Threaded.delete_vpc env dr vpcId region).filter p
      = (Threaded.delete_vpc env dr' vpcId region).filter p := by
  cases dr <;> cases dr' <;> cases hc : env.callFails (Event.deleteVpc vpcId) <;>
    simp [Threaded.delete_vpc, hc, List.filter_cons, hp.1 (Event.deleteVpc vpcId) rfl,
      hp.2.1, hp.2.2]

theorem threaded_filter_dry_irrel (p : Event → Bool) (hp : DryInsensitive p) (env : Env)
    (region : String) (dr dr' : Bool) (h1 : env.igwListFails = false)
    (h2 : env.subListFails = false) (h3 : env.rtbListFails = false)
    (h4 : env.aclListFails = false) (h5 : env.sgpListFails = false) :
    (runEvents (Threaded.delete_everything_in_region env dr region)).filter p
      = (runEvents (Threaded.delete_everything_in_region env dr' region)).filter p := by
  match hv : env.defaultVpcAttr with
  | none => simp [Threaded.delete_everything_in_region, hv]
  | some vpcId =>
    match hnic : env.networkInterfaces with
    | _ :: _ => simp [Threaded.delete_everything_in_region, hv, hnic]
    | [] =>
      rw [threaded_main_eq env dr region vpcId hv hnic h1 h2 h3 h4 h5,
        threaded_main_eq env dr' region vpcId hv hnic h1 h2 h3 h4 h5]
      simp only [runEvents, List.filter_append]
      rw [dry_irrel_igw_body p hp env dr dr' vpcId,
        dry_irrel_subs_body p hp env dr dr' vpcId,
        dry_irrel_rtbs_body p hp env dr dr' vpcId,
        dry_irrel_acls_body p hp env dr dr' vpcId,
        dry_irrel_sgps_body p hp env dr dr' vpcId,
        dry_irrel_vpc p hp env dr dr' vpcId region]

/-! ## Membership lemmas for the protection predicates -/

theorem mem_muts_classic_acls (env : Env) (vpcId : String) (e : Event)
    (h : e ∈ muts (Classic.delete_acls env vpcId)) : e ∈ aclDeletes env := by
  have key : muts (Classic.delete_acls env vpcId) = aclDeletes env
      ∨ muts (Classic.delete_acls env vpcId) = [] := by
    cases hf : env.aclListFails
    · left
      simp [muts, Classic.delete_acls, hf, runEvents, muts_classic_acls_body]
    · right
      simp [muts, Classic.delete_acls, hf, runEvents, List.filter_cons, Event.isMutating]
  rcases key with k | k
  · rwa [k] at h
  · rw [k] at h
    exact absurd h (List.not_mem_nil e)

theorem mem_muts_threaded_acls (env : Env) (dr : Bool) (vpcId : String) (e : Event)
    (h : e ∈ muts (Threaded.delete_acls env dr vpcId)) : e ∈ aclDeletes env := by
  have key : muts (Threaded.delete_acls env dr vpcId) = aclDeletes env
      ∨ muts (Threaded.delete_acls env dr vpcId) = [] := by
    cases hf : env.aclListFails
    · cases dr
      · left
        simp [muts, Threaded.delete_acls, hf, runEvents, muts_threaded_acls_body]
      · right
        simp [muts, Threaded.delete_acls, hf, runEvents, muts_threaded_acls_body]
    · right
      simp [muts, Threaded.delete_acls, hf, runEvents, List.filter_cons, Event.isMutating]
  rcases key with k | k
  · rwa [k] at h
  · rw [k] at h
    exact absurd h (List.not_mem_nil e)

theorem mem_muts_classic_sgps (env : Env) (vpcId : String) (e : Event)
    (h : e ∈ muts (Classic.delete_sgps env vpcId)) : e ∈ sgDeletes env := by
  have key : muts (Classic.delete_sgps env vpcId) = sgDeletes env
      ∨ muts (Classic.delete_sgps env vpcId) = [] := by
    cases hf : env.sgpListFails
    · left
      simp [muts, Classic.delete_sgps, hf, runEvents, muts_classic_sgps_body]
    · right
      simp [muts, Classic.delete_sgps, hf, runEvents, List.filter_cons, Event.isMutating]
  rcases key with k | k
  · rwa [k] at h
  · rw [k] at h
    exact absurd h (List.not_mem_nil e)

theorem mem_muts_threaded_sgps (env : Env) (dr : Bool) (vpcId : String) (e : Event)
    (h : e ∈ muts (Threaded.delete_sgps env dr vpcId)) : e ∈ sgDeletes env := by
  have key : muts (Threaded.delete_sgps env dr vpcId) = sgDeletes env
      ∨ muts (Threaded.delete_sgps env dr vpcId) = [] := by
    cases hf : env.sgpListFails
    · cases dr
      · left
        simp [muts, Threaded.delete_sgps, hf, runEvents, muts_threaded_sgps_body]
      · right
        simp [muts, Threaded.delete_sgps, hf, runEvents, muts_threaded_sgps_body]
    · right
      simp [muts, Threaded.delete_sgps, hf, runEvents, List.filter_cons, Event.isMutating]
  rcases key with k | k
  · rwa [k] at h
  · rw [k] at h
    exact absurd h (List.not_mem_nil e)

theorem mem_aclDeletes (env : Env) (aclId : String)
    (h : Event.deleteNetworkAcl aclId ∈ aclDeletes env) :
    ∃ a ∈ env.networkAcls, a.networkAclId = aclId ∧ a.isDefault = false := by
  unfold aclDeletes at h
  obtain ⟨a, ha, heq⟩ := List.mem_map.mp h
  obtain ⟨hmem, hdef⟩ := List.mem_filter.mp ha
  simp only [Event.deleteNetworkAcl.injEq] at heq
  simp only [Bool.not_eq_eq_eq_not, Bool.not_true] at hdef
  exact ⟨a, hmem, heq, hdef⟩

theorem mem_sgDeletes (env : Env) (sgId : String)
    (h : Event.deleteSecurityGroup sgId ∈ sgDeletes env) :
    ∃ g ∈ env.securityGroups, g.groupId = sgId ∧ g.groupName ≠ "default" := by
  unfold sgDeletes at h
  obtain ⟨g, hg, heq⟩ := List.mem_map.mp h
  obtain ⟨hmem, hdef⟩ := List.mem_filter.mp hg
  simp only [Event.deleteSecurityGroup.injEq] at heq
  simp only [Bool.not_eq_eq_eq_not, Bool.not_true, beq_eq_false_iff_ne, ne_eq] at hdef
  exact ⟨g, hmem, heq, hdef⟩

/-! ## Concrete fixture environments -/

/-- A default VPC with one attached network interface. -/
def envInUse : Env :=
  ⟨[], [], [], [], [], ["eni-1"], some "vpc-1",
    false, false, false, false, false, false, false, fun _ => false⟩

/-- A route table whose association list holds a main association first and a
non-main association last. -/
def rtbMainFirst : RouteTable := ⟨"rtb-1", [⟨true⟩, ⟨false⟩]⟩

/-- A VPC whose only route table is `rtbMainFirst`. -/
def envMainFirst : Env :=
  ⟨[], [], [rtbMainFirst], [], [], [], some "vpc-1",
    false, false, false, false, false, false, false, fun _ => false⟩

/-- One non-default network ACL and one non-default security group. -/
def envProtected : Env :=
  ⟨[], [], [], [⟨"acl-1", false⟩], [⟨"sg-1", "web"⟩], [], some "vpc-1",
    false, false, false, false, false, false, false, fun _ => false⟩

/-- A region whose `default-vpc` account attribute value is the literal
string "none". -/
def envNoneVpc : Env :=
  ⟨[], [], [], [], [], [], some "none",
    false, false, false, false, false, false, false, fun _ => false⟩

/-- Two non-default network ACLs. -/
def envTwoAcls : Env :=
  ⟨[], [], [], [⟨"acl-1", false⟩, ⟨"acl-2", false⟩], [], [], some "vpc-1",
    false, false, false, false, false, false, false, fun _ => false⟩

/-- One attached internet gateway. -/
def envOneIgw : Env :=
  ⟨[⟨"igw-1"⟩], [], [], [], [], [], some "vpc-1",
    false, false, false, false, false, false, false, fun _ => false⟩

/-- A populated default VPC whose `describe_subnets` call raises
`ClientError`. -/
def envSubsFail : Env :=
  ⟨[⟨"igw-1"⟩], [⟨"sub-1"⟩], [⟨"rtb-1", []⟩], [⟨"acl-1", false⟩], [⟨"sg-1", "web"⟩],
    [], some "vpc-1", false, true, false, false, false, false, false, fun _ => false⟩

/-- A populated default VPC with one protected and one deletable instance per
kind and no failures. -/
def envFull : Env :=
  ⟨[⟨"igw-1"⟩], [⟨"sub-1"⟩], [⟨"rtb-main", [⟨true⟩]⟩, ⟨"rtb-1", []⟩],
    [⟨"acl-def", true⟩, ⟨"acl-1", false⟩], [⟨"sg-def", "default"⟩, ⟨"sg-1", "web"⟩],
    [], some "vpc-1", false, false, false, false, false, false, false, fun _ => false⟩

/-! ## The claims -/

/-- C1: whenever the network-interface query returns at least one interface,
both variants stop before the teardown stage: the run emits no deleter call
(neither a deleter describe nor any mutating call) and no VPC deletion. -/
theorem claim_C1 (env : Env) (region : String) (dr : Bool)
    (h : env.networkInterfaces ≠ []) :
    (runEvents (Classic.main env region)).filter Event.isTeardownCall = []
      ∧ (runEvents (Threaded.delete_everything_in_region env dr region)).filter
          Event.isTeardownCall = [] := by
  obtain ⟨x, xs, hx⟩ : ∃ x xs, env.networkInterfaces = x :: xs := by
    match hnic : env.networkInterfaces with
    | [] => exact absurd hnic h
    | a :: t => exact ⟨a, t, rfl⟩
  constructor
  · cases hattr : env.attrQueryFails
    · match hv : env.defaultVpcAttr with
      | none =>
        simp [Classic.main, hattr, hv, runEvents, List.filter_cons,
          Event.isTeardownCall, Event.isMutating]
      | some v =>
        by_cases hnone : v = "none"
        · simp [Classic.main, hattr, hv, hnone, runEvents, List.filter_cons,
            Event.isTeardownCall, Event.isMutating]
        · cases heni : env.eniQueryFails
          · simp [Classic.main, hattr, hv, hnone, heni, hx, runEvents,
              List.filter_cons, Event.isTeardownCall, Event.isMutating]
          · simp [Classic.main, hattr, hv, hnone, heni, runEvents,
              List.filter_cons, Event.isTeardownCall, Event.isMutating]
    · simp [Classic.main, hattr, runEvents, List.filter_cons,
        Event.isTeardownCall, Event.isMutating]
  · match hv : env.defaultVpcAttr with
    | none =>
      simp [Threaded.delete_everything_in_region, hv, runEvents, List.filter_cons,
        Event.isTeardownCall, Event.isMutating]
    | some v =>
      simp [Threaded.delete_everything_in_region, hv, hx, runEvents, List.filter_cons,
        Event.isTeardownCall, Event.isMutating]

theorem claim_C1_witness :
    envInUse.networkInterfaces ≠ []
      ∧ ((runEvents (Classic.main envInUse "us-west-2")).filter Event.isTeardownCall = []
        ∧ (runEvents (Threaded.delete_everything_in_region envInUse false
            "us-west-2")).filter Event.isTeardownCall = []) :=
  ⟨by decide, claim_C1 envInUse "us-west-2" false (by decide)⟩

/-- C2: the claim that a route table with a main association among its
associations is never deleted, regardless of position, fails on the code:
both variants keep only the last-seen `Main` flag, so the table
`rtbMainFirst`, whose first association is main and whose last is not, does
receive a `delete_route_table` call. -/
theorem claim_C2 :
    (∃ a ∈ rtbMainFirst.associations, a.main = true)
      ∧ Event.deleteRouteTable "rtb-1" ∈ muts (Classic.delete_rtbs envMainFirst "vpc-1")
      ∧ Event.deleteRouteTable "rtb-1"
          ∈ muts (Threaded.delete_rtbs envMainFirst false "vpc-1") := by
  decide

/-- C3: in both variants, `delete_network_acl` is only ever called on an ACL
listed with `IsDefault` false, and `delete_security_group` only on a group
listed with a name other than "default". -/
theorem claim_C3 (env : Env) (vpcId : String) (dr : Bool) (aclId sgId : String) :
    ((Event.deleteNetworkAcl aclId ∈ muts (Classic.delete_acls env vpcId)
        ∨ Event.deleteNetworkAcl aclId ∈ muts (Threaded.delete_acls env dr vpcId)) →
      ∃ a ∈ env.networkAcls, a.networkAclId = aclId ∧ a.isDefault = false)
    ∧ ((Event.deleteSecurityGroup sgId ∈ muts (Classic.delete_sgps env vpcId)
        ∨ Event.deleteSecurityGroup sgId ∈ muts (Threaded.delete_sgps env dr vpcId)) →
      ∃ g ∈ env.securityGroups, g.groupId = sgId ∧ g.groupName ≠ "default") := by
  constructor
  · rintro (h | h)
    · exact mem_aclDeletes env aclId (mem_muts_classic_acls env vpcId _ h)
    · exact mem_aclDeletes env aclId (mem_muts_threaded_acls env dr vpcId _ h)
  · rintro (h | h)
    · exact mem_sgDeletes env sgId (mem_muts_classic_sgps env vpcId _ h)
    · exact mem_sgDeletes env sgId (mem_muts_threaded_sgps env dr vpcId _ h)

theorem claim_C3_witness :
    ∃ a ∈ envProtected.networkAcls, a.networkAclId = "acl-1" ∧ a.isDefault = false :=
  (claim_C3 envProtected "vpc-1" false "acl-1" "sg-1").1 (Or.inl (by decide))

/-- C6 counterexample: with two non-default ACLs in the list, one invocation
of the deleter issues a delete call for each of them — not at most a single
one — in both variants. -/
theorem claim_C6_counterexample :
    muts (Classic.delete_acls envTwoAcls "vpc-1")
        = [Event.deleteNetworkAcl "acl-1", Event.deleteNetworkAcl "acl-2"]
      ∧ muts (Threaded.delete_acls envTwoAcls false "vpc-1")
        = [Event.deleteNetworkAcl "acl-1", Event.deleteNetworkAcl "acl-2"] := by
  decide

/-- C6 (amended): one invocation of the network-ACL deleter issues a delete
call for every ACL whose `IsDefault` flag is not true, in list order — all
non-default ACLs, not only the first match. -/
theorem claim_C6 (env : Env) (vpcId : String) (h : env.aclListFails = false) :
    muts (Classic.delete_acls env vpcId) = aclDeletes env
      ∧ muts (Threaded.delete_acls env false vpcId) = aclDeletes env := by
  constructor
  · simp [muts, Classic.delete_acls, h, runEvents, muts_classic_acls_body]
  · simp [muts, Threaded.delete_acls, h, runEvents, muts_threaded_acls_body]

theorem claim_C6_witness :
    muts (Classic.delete_acls envTwoAcls "vpc-1") = aclDeletes envTwoAcls
      ∧ muts (Threaded.delete_acls envTwoAcls false "vpc-1") = aclDeletes envTwoAcls :=
  claim_C6 envTwoAcls "vpc-1" rfl

/-- C7: the internet-gateway deleter is two-phase.  When the list step returns
no gateway it issues no detach and no delete call (both phases no-ops); when
it returns a gateway it issues the detach and then the delete of that first
gateway — the delete is attempted even if the detach call failed, since the
mutating-call trace does not depend on call outcomes. -/
theorem claim_C7 (env : Env) (vpcId : String) (h : env.igwListFails = false) :
    (env.internetGateways = [] →
      muts (Classic.delete_igw env vpcId) = []
        ∧ muts (Threaded.delete_igw env false vpcId) = [])
    ∧ ∀ g rest, env.internetGateways = g :: rest →
        muts (Classic.delete_igw env vpcId)
            = [Event.detachIgw g.internetGatewayId vpcId, Event.deleteIgw g.internetGatewayId]
          ∧ muts (Threaded.delete_igw env false vpcId)
            = [Event.detachIgw g.internetGatewayId vpcId,
                Event.deleteIgw g.internetGatewayId] := by
  have hc : muts (Classic.delete_igw env vpcId) = igwDeletes env vpcId := by
    simp [muts, Classic.delete_igw, h, runEvents, muts_classic_igw_body]
  have ht : muts (Threaded.delete_igw env false vpcId) = igwDeletes env vpcId := by
    simp [muts, Threaded.delete_igw, h, runEvents, muts_threaded_igw_body]
  refine ⟨fun hnil => ?_, fun g rest hcons => ?_⟩
  · constructor <;> simp [hc, ht, igwDeletes, hnil]
  · constructor <;> simp [hc, ht, igwDeletes, hcons]

theorem claim_C7_witness :
    muts (Classic.delete_igw envOneIgw "vpc-1")
        = [Event.detachIgw "igw-1" "vpc-1", Event.deleteIgw "igw-1"]
      ∧ muts (Threaded.delete_igw envOneIgw false "vpc-1")
        = [Event.detachIgw "igw-1" "vpc-1", Event.deleteIgw "igw-1"] :=
  (claim_C7 envOneIgw "vpc-1" rfl).2 ⟨"igw-1"⟩ [] rfl

/-- C4: in a gate-passing region run of either variant, the mutating calls
are exactly the internet-gateway detach/delete, then the subnet deletes, then
the route-table deletes, then the network-ACL deletes, then the
security-group deletes, then — last of all — the VPC deletion; and the five
deleters are all attempted (their list calls appear, in this order) before
the VPC-deletion call. -/
theorem claim_C4 (env : Env) (region vpcId : String)
    (hattr : env.attrQueryFails = false) (hv : env.defaultVpcAttr = some vpcId)
    (hnone : vpcId ≠ "none") (heni : env.eniQueryFails = false)
    (hnic : env.networkInterfaces = []) (h1 : env.igwListFails = false)
    (h2 : env.subListFails = false) (h3 : env.rtbListFails = false)
    (h4 : env.aclListFails = false) (h5 : env.sgpListFails = false) :
    muts (Classic.main env region)
        = igwDeletes env vpcId ++ subDeletes env ++ rtbDeletes env ++ aclDeletes env
          ++ sgDeletes env ++ [Event.deleteVpc vpcId]
      ∧ ([Event.describeIgws vpcId, Event.describeSubnets vpcId, Event.describeRtbs vpcId,
          Event.describeAcls vpcId, Event.describeSgps vpcId,
          Event.deleteVpc vpcId] : Trace).Sublist (runEvents (Classic.main env region))
      ∧ muts (Threaded.delete_everything_in_region env false region)
        = igwDeletes env vpcId ++ subDeletes env ++ rtbDeletes env ++ aclDeletes env
          ++ sgDeletes env ++ [Event.deleteVpc vpcId]
      ∧ ([Event.describeIgws vpcId, Event.describeSubnets vpcId, Event.describeRtbs vpcId,
          Event.describeAcls vpcId, Event.describeSgps vpcId,
          Event.deleteVpc vpcId] : Trace).Sublist
          (runEvents (Threaded.delete_everything_in_region env false region)) := by
  refine ⟨classic_main_muts env region vpcId hattr hv hnone heni hnic h1 h2 h3 h4 h5,
    ?_, threaded_main_muts env region vpcId hv hnic h1 h2 h3 h4 h5, ?_⟩
  · have hb1 : [Event.describeIgws vpcId].Sublist (Classic.delete_igw_body env vpcId) := by
      unfold Classic.delete_igw_body
      exact List.singleton_sublist.mpr (List.mem_cons_self _ _)
    have hb2 : [Event.describeSubnets vpcId].Sublist (Classic.delete_subs_body env vpcId) := by
      unfold Classic.delete_subs_body
      exact List.singleton_sublist.mpr (List.mem_cons_self _ _)
    have hb3 : [Event.describeRtbs vpcId].Sublist (Classic.delete_rtbs_body env vpcId) := by
      unfold Classic.delete_rtbs_body
      exact List.singleton_sublist.mpr (List.mem_cons_self _ _)
    have hb4 : [Event.describeAcls vpcId].Sublist (Classic.delete_acls_body env vpcId) := by
      unfold Classic.delete_acls_body
      exact List.singleton_sublist.mpr (List.mem_cons_self _ _)
    have hb5 : [Event.describeSgps vpcId].Sublist (Classic.delete_sgps_body env vpcId) := by
      unfold Classic.delete_sgps_body
      exact List.singleton_sublist.mpr (List.mem_cons_self _ _)
    have hvpc : [Event.deleteVpc vpcId].Sublist (Classic.delete_vpc env vpcId region) := by
      refine List.singleton_sublist.mpr ?_
      unfold Classic.delete_vpc
      cases hcall : env.callFails (Event.deleteVpc vpcId) <;> simp
    have H := hb1.append (hb2.append (hb3.append (hb4.append (hb5.append hvpc))))
    have H0 := (List.nil_sublist
      ([Event.describeAttrs, Event.describeEnis vpcId] : Trace)).append H
    rw [classic_main_eq env region vpcId hattr hv hnone heni hnic h1 h2 h3 h4 h5]
    simpa using H0
  · have hb1 : [Event.describeIgws vpcId].Sublist
        (Threaded.delete_igw_body env false vpcId) := by
      unfold Threaded.delete_igw_body
      exact List.singleton_sublist.mpr (List.mem_cons_self _ _)
    have hb2 : [Event.describeSubnets vpcId].Sublist
        (Threaded.delete_subs_body env false vpcId) := by
      unfold Threaded.delete_subs_body
      exact List.singleton_sublist.mpr (List.mem_cons_self _ _)
    have hb3 : [Event.describeRtbs vpcId].Sublist
        (Threaded.delete_rtbs_body env false vpcId) := by
      unfold Threaded.delete_rtbs_body
      exact List.singleton_sublist.mpr (List.mem_cons_self _ _)
    have hb4 : [Event.describeAcls vpcId].Sublist
        (Threaded.delete_acls_body env false vpcId) := by
      unfold Threaded.delete_acls_body
      exact List.singleton_sublist.mpr (List.mem_cons_self _ _)
    have hb5 : [Event.describeSgps vpcId].Sublist
        (Threaded.delete_sgps_body env false vpcId) := by
      unfold Threaded.delete_sgps_body
      exact List.singleton_sublist.mpr (List.mem_cons_self _ _)
    have hvpc : [Event.deleteVpc vpcId].Sublist
        (Threaded.delete_vpc env false vpcId region) := by
      refine List.singleton_sublist.mpr ?_
      unfold Threaded.delete_vpc
      cases hcall : env.callFails (Event.deleteVpc vpcId) <;> simp
    have H := hb1.append (hb2.append (hb3.append (hb4.append (hb5.append hvpc))))
    have H0 := (List.nil_sublist
      ([Event.logScanning region, Event.describeAttrs, Event.logRemoving vpcId,
        Event.describeEnis vpcId] : Trace)).append H
    rw [threaded_main_eq env false region vpcId hv hnic h1 h2 h3 h4 h5]
    simpa using H0

theorem claim_C4_witness :
    muts (Classic.main envFull "us-west-2")
        = igwDeletes envFull "vpc-1" ++ subDeletes envFull ++ rtbDeletes envFull
          ++ aclDeletes envFull ++ sgDeletes envFull ++ [Event.deleteVpc "vpc-1"]
      ∧ ([Event.describeIgws "vpc-1", Event.describeSubnets "vpc-1",
          Event.describeRtbs "vpc-1", Event.describeAcls "vpc-1",
          Event.describeSgps "vpc-1", Event.deleteVpc "vpc-1"] : Trace).Sublist
          (runEvents (Classic.main envFull "us-west-2"))
      ∧ muts (Threaded.delete_everything_in_region envFull false "us-west-2")
        = igwDeletes envFull "vpc-1" ++ subDeletes envFull ++ rtbDeletes envFull
          ++ aclDeletes envFull ++ sgDeletes envFull ++ [Event.deleteVpc "vpc-1"]
      ∧ ([Event.describeIgws "vpc-1", Event.describeSubnets "vpc-1",
          Event.describeRtbs "vpc-1", Event.describeAcls "vpc-1",
          Event.describeSgps "vpc-1", Event.deleteVpc "vpc-1"] : Trace).Sublist
          (runEvents (Threaded.delete_everything_in_region envFull false "us-west-2")) :=
  claim_C4 envFull "us-west-2" "vpc-1" rfl rfl (by decide) rfl rfl rfl rfl rfl rfl rfl

/-- C5: the claim fails on the threaded variant.  When the `default-vpc`
attribute value is the literal "none", `delete_everything_in_region` does not
skip (it only checks that the attribute list is nonempty): it proceeds to the
teardown of the VPC id "none" and issues a `delete_vpc` call, and the
"was not found" skip line is never printed.  The classic variant documents
the intent: on the same oracle it issues no mutating call and prints the
skip line. -/
theorem claim_C5 :
    Event.deleteVpc "none"
        ∈ muts (Threaded.delete_everything_in_region envNoneVpc false "eu-west-1")
      ∧ Event.logNoVpc "eu-west-1"
          ∉ runEvents (Threaded.delete_everything_in_region envNoneVpc false "eu-west-1")
      ∧ muts (Classic.main envNoneVpc "eu-west-1") = []
      ∧ Event.logNoVpc "eu-west-1" ∈ runEvents (Classic.main envNoneVpc "eu-west-1") := by
  decide

/-- C8: the claim fails for list-call failures.  When `describe_subnets`
raises `ClientError` mid-teardown, the classic variant prints the message but
then evaluates `if subs:` with `subs` unbound, raising an uncaught
`UnboundLocalError`: the run crashes after the internet-gateway stage, and
the route-table, ACL and security-group deleters and the VPC deletion are
never attempted. -/
theorem claim_C8 :
    crashed (Classic.main envSubsFail "us-west-2") = true
      ∧ Event.detachIgw "igw-1" "vpc-1" ∈ runEvents (Classic.main envSubsFail "us-west-2")
      ∧ Event.logErr ∈ runEvents (Classic.main envSubsFail "us-west-2")
      ∧ Event.describeRtbs "vpc-1" ∉ runEvents (Classic.main envSubsFail "us-west-2")
      ∧ Event.deleteRouteTable "rtb-1" ∉ runEvents (Classic.main envSubsFail "us-west-2")
      ∧ Event.deleteVpc "vpc-1" ∉ runEvents (Classic.main envSubsFail "us-west-2") := by
  decide

/-- C9: over the threaded variant with the stray token of line 82 dropped
(the file as written is a syntax error and cannot run at all): a dry run
issues zero mutating calls, and issues exactly the same list/describe calls
and the same "Detaching"/"Deleting" intention logs as a non-dry run over the
same oracle. -/
theorem claim_C9 (env : Env) (region : String)
    (h1 : env.igwListFails = false) (h2 : env.subListFails = false)
    (h3 : env.rtbListFails = false) (h4 : env.aclListFails = false)
    (h5 : env.sgpListFails = false) :
    muts (Threaded.delete_everything_in_region env true region) = []
      ∧ (runEvents (Threaded.delete_everything_in_region env true region)).filter
            Event.isDescribe
          = (runEvents (Threaded.delete_everything_in_region env false region)).filter
            Event.isDescribe
      ∧ (runEvents (Threaded.delete_everything_in_region env true region)).filter
            Event.isIntentLog
          = (runEvents (Threaded.delete_everything_in_region env false region)).filter
            Event.isIntentLog :=
  ⟨threaded_dry_muts env region h1 h2 h3 h4 h5,
    threaded_filter_dry_irrel Event.isDescribe dryInsensitive_isDescribe env region
      true false h1 h2 h3 h4 h5,
    threaded_filter_dry_irrel Event.isIntentLog dryInsensitive_isIntentLog env region
      true false h1 h2 h3 h4 h5⟩

theorem claim_C9_witness :
    muts (Threaded.delete_everything_in_region envFull true "us-west-2") = []
      ∧ (runEvents (Threaded.delete_everything_in_region envFull true "us-west-2")).filter
            Event.isDescribe
          = (runEvents (Threaded.delete_everything_in_region envFull false
              "us-west-2")).filter Event.isDescribe
      ∧ (runEvents (Threaded.delete_everything_in_region envFull true "us-west-2")).filter
            Event.isIntentLog
          = (runEvents (Threaded.delete_everything_in_region envFull false
              "us-west-2")).filter Event.isIntentLog :=
  claim_C9 envFull "us-west-2" rfl rfl rfl rfl rfl

/-- C10: in the threaded variant's entry point, a second command-line
argument makes the module-level dry-run flag the result of comparing that
string to the boolean `True`, which is false whatever the string; the region
runs then behave exactly as with the flag off (mutating mode). -/
theorem claim_C10 (argv0 profileArg dryArg : String) (env : Env) (region : String) :
    Threaded.scriptDryrun [argv0, profileArg, dryArg] = false
      ∧ Threaded.delete_everything_in_region env
          (Threaded.scriptDryrun [argv0, profileArg, dryArg]) region
        = Threaded.delete_everything_in_region env false region :=
  ⟨rfl, rfl⟩

end VpcDelete
